import Mathlib

/-!
Shallow embedding of the hik-net-sdk session layer (src/src/device.rs,
src/src/lib.rs).  Machine integers of the Rust source (u8, u16, i32/LONG)
are modelled as Nat / Int; the two places where the source performs
fixed-width arithmetic that can overflow (the u8 loop bound
`byStartChan + byChanNum` and the u16 loop bound `byStartDChan + maxIPChan`
in HikDeviceInfo::get_channels) carry an explicit `% 256` resp. `% 65536`
(release-mode wrapping semantics).  Native SDK calls are opaque: each
operation takes the native results it would observe as explicit arguments
and additionally returns the list of native calls it issues, so that
"no native call is made" is a provable statement.  Fallible operations
return an `Outcome`; `Outcome.panicked` models a Rust panic (e.g. the
`.unwrap()` inside the `as_c_string!` macro of src/src/lib.rs).
-/

namespace HikNetSdk

/-- The subset of NET_DVR_DEVICEINFO_V30 read by HikDeviceInfo::get_channels.
All five fields are u8 in the native struct. -/
structure DeviceInfoV30 where
  byChanNum : Nat
  byStartChan : Nat
  byIPChanNum : Nat
  byHighDChanNum : Nat
  byStartDChan : Nat
deriving DecidableEq, Repr

/-- Well-formedness of a device descriptor: every field fits in a u8,
as it does in the native struct. -/
def DeviceInfoV30.Wf (d : DeviceInfoV30) : Prop :=
  d.byChanNum < 256 ∧ d.byStartChan < 256 ∧ d.byIPChanNum < 256 ∧
    d.byHighDChanNum < 256 ∧ d.byStartDChan < 256

instance (d : DeviceInfoV30) : Decidable d.Wf := by
  unfold DeviceInfoV30.Wf; infer_instance

/-- ChannelInfo of src/src/device.rs.  Decoded strings are modelled as
lists of Unicode code points. -/
structure ChannelInfo where
  index : Nat
  chan_num : Nat
  enable : Bool
  get_stream_type : Option Nat
  stream_channel : Option Nat
  ipv4_address : Option (List Nat)
  ipv6_address : Option (List Nat)
deriving DecidableEq, Repr

/-- ChannelInfo::new: index and chan_num set, everything else Default
(false / None). -/
def ChannelInfo.new (index chan_num : Nat) : ChannelInfo :=
  ⟨index, chan_num, false, none, none, none, none⟩

/-- enum Channel of src/src/device.rs. -/
inductive Channel where
  | Logic : ChannelInfo → Channel
  | IP : ChannelInfo → Channel
deriving DecidableEq, Repr

def Channel.isLogic : Channel → Bool
  | Channel.Logic _ => true
  | Channel.IP _ => false

def Channel.isIP : Channel → Bool
  | Channel.Logic _ => false
  | Channel.IP _ => true

/-- HikDeviceInfo::get_channels.  Rust `for num in a..b` runs b - a times
(zero when b ≤ a), the element produced at loop iteration i having
num = a + i and index = i; the two loop bounds are computed in u8 resp.
u16 arithmetic, hence the explicit wrap.  `maxIPChan` is computed in u16
from two u8 casts and cannot itself wrap for well-formed descriptors. -/
def HikDeviceInfo.get_channels (d : DeviceInfoV30) : List Channel :=
  let maxIPChan := d.byIPChanNum + d.byHighDChanNum * 256
  let endChan := (d.byStartChan + d.byChanNum) % 256
  let logic := (List.range (endChan - d.byStartChan)).map
    (fun i => Channel.Logic (ChannelInfo.new i (d.byStartChan + i)))
  let endDChan := (d.byStartDChan + maxIPChan) % 65536
  let ip := (List.range (endDChan - d.byStartDChan)).map
    (fun i => Channel.IP (ChannelInfo.new i (d.byStartDChan + i)))
  logic ++ ip

/-- The subset of NET_DVR_IPDEVINFO_V31 read by HikDevice::get_channels:
the enable byte and the two raw address byte buffers (bytes as Nat). -/
structure IpDevInfo where
  byEnable : Nat
  sIpV4 : List Nat
  byIPv6 : List Nat
deriving DecidableEq, Repr

/-- The subset of NET_DVR_STREAM_MODE read by HikDevice::get_channels.
`chanInfoByChannel` is uGetStream.struChanInfo.byChannel, the union member
that the source reads only when byGetStreamType == 0. -/
structure StreamMode where
  byGetStreamType : Nat
  chanInfoByChannel : Nat
deriving DecidableEq, Repr

/-- The subset of NET_DVR_IPPARACFG_V40 read by HikDevice::get_channels.
The native struct has fixed-capacity arrays; they are modelled as lists
whose lengths are the capacities, so that out-of-range indexing is
expressible. -/
structure IpParaCfg where
  byAnalogChanEnable : List Nat
  struIPDevInfo : List IpDevInfo
  struStreamMode : List StreamMode
deriving DecidableEq, Repr

/-- One step of UTF-8 decoding with replacement, as performed by Rust's
String::from_utf8_lossy: given the current byte and the remaining bytes,
return the decoded code point (0xFFFD on a malformed sequence) and how
many further bytes were consumed.  On a malformed multi-byte sequence the
model consumes no further bytes, which approximates lossy replacement
granularity; it is exact on ASCII input (every byte < 0x80), the only
case any claim exercises. -/
def utf8DecodeStep (b : Nat) (rest : List Nat) : Nat × Nat :=
  if b < 0x80 then (b, 0)
  else if 0xC2 ≤ b ∧ b ≤ 0xDF then
    match rest with
    | c1 :: _ =>
      if 0x80 ≤ c1 ∧ c1 ≤ 0xBF then ((b - 0xC0) * 64 + (c1 - 0x80), 1)
      else (0xFFFD, 0)
    | [] => (0xFFFD, 0)
  else if 0xE0 ≤ b ∧ b ≤ 0xEF then
    match rest with
    | c1 :: c2 :: _ =>
      if (0x80 ≤ c1 ∧ c1 ≤ 0xBF) ∧ (0x80 ≤ c2 ∧ c2 ≤ 0xBF) ∧
          (b ≠ 0xE0 ∨ 0xA0 ≤ c1) ∧ (b ≠ 0xED ∨ c1 ≤ 0x9F) then
        ((b - 0xE0) * 4096 + (c1 - 0x80) * 64 + (c2 - 0x80), 2)
      else (0xFFFD, 0)
    | _ => (0xFFFD, 0)
  else if 0xF0 ≤ b ∧ b ≤ 0xF4 then
    match rest with
    | c1 :: c2 :: c3 :: _ =>
      if (0x80 ≤ c1 ∧ c1 ≤ 0xBF) ∧ (0x80 ≤ c2 ∧ c2 ≤ 0xBF) ∧
          (0x80 ≤ c3 ∧ c3 ≤ 0xBF) ∧ (b ≠ 0xF0 ∨ 0x90 ≤ c1) ∧
          (b ≠ 0xF4 ∨ c1 ≤ 0x8F) then
        ((b - 0xF0) * 262144 + (c1 - 0x80) * 4096 + (c2 - 0x80) * 64 +
          (c3 - 0x80), 3)
      else (0xFFFD, 0)
    | _ => (0xFFFD, 0)
  else (0xFFFD, 0)

/-- String::from_utf8_lossy on a byte buffer, producing code points. -/
def utf8Lossy : List Nat → List Nat
  | [] => []
  | b :: rest =>
    let s := utf8DecodeStep b rest
    s.1 :: utf8Lossy (rest.drop s.2)
termination_by l => l.length
decreasing_by simp only [List.length_drop, List.length_cons]; omega

/-- str::trim_end_matches with pattern nul: repeatedly strip the trailing
character while it is the nul code point. -/
def trimEndZeros (l : List Nat) : List Nat :=
  (l.reverse.dropWhile (fun b => b == 0)).reverse

/-- The string decode applied by HikDevice::get_channels to sIpV4 and
byIPv6: from_utf8_lossy then trim_end_matches of the nul character. -/
def decodeCStringField (raw : List Nat) : List Nat :=
  trimEndZeros (utf8Lossy raw)

/-- The body of the per-channel join loop of HikDevice::get_channels:
fill one resolver channel from the fetched IP configuration.  The source
indexes the fixed arrays with no bounds check; an out-of-range index is a
Rust panic, modelled as `none`. -/
def updateChannel (cfg : IpParaCfg) (c : Channel) : Option Channel :=
  match c with
  | Channel.Logic ci =>
    match cfg.byAnalogChanEnable.get? ci.index with
    | none => none
    | some b => some (Channel.Logic { ci with enable := b == 1 })
  | Channel.IP ci =>
    match cfg.struIPDevInfo.get? ci.index, cfg.struStreamMode.get? ci.index with
    | some dev, some sm =>
      some (Channel.IP { ci with
        enable := dev.byEnable == 1,
        ipv4_address := some (decodeCStringField dev.sIpV4),
        ipv6_address := some (decodeCStringField dev.byIPv6),
        get_stream_type := some sm.byGetStreamType,
        stream_channel :=
          if sm.byGetStreamType == 0 then some sm.chanInfoByChannel
          else ci.stream_channel })
    | _, _ => none

/-- The join loop of HikDevice::get_channels over the whole channel list;
`none` means some iteration panicked on out-of-range indexing. -/
def joinChannels (cfg : IpParaCfg) : List Channel → Option (List Channel)
  | [] => some []
  | c :: rest =>
    match updateChannel cfg c, joinChannels cfg rest with
    | some c2, some rest2 => some (c2 :: rest2)
    | _, _ => none

/-- Error taxonomy: one constructor per distinct anyhow! message produced
in src/src/device.rs, carrying the same data (native last-error code,
dwReturned). -/
inductive HikError where
  | loginFailed : Int → HikError
  | loginHandlerNotFound : HikError
  | deviceInfoNotFound : HikError
  | getIpChannelConfigFailed : Int → Nat → HikError
  | captureJpegFailed : Int → HikError
  | getFileByTimeFailed : Int → HikError
  | startDownloadFailed : Int → HikError
  | downloadNotStarted : HikError
  | getProgressFailedWithCode : Int → HikError
  | networkError : HikError
  | getProgressFailed : HikError
  | stopDownloadFailed : Int → HikError
deriving DecidableEq, Repr

/-- Result of running an operation: Ok value, returned error, or Rust
panic (unwrap / out-of-bounds indexing). -/
inductive Outcome (α : Type) where
  | ok : α → Outcome α
  | err : HikError → Outcome α
  | panicked : Outcome α
deriving DecidableEq, Repr

def Outcome.isErr {α : Type} : Outcome α → Bool
  | Outcome.err _ => true
  | _ => false

/-- The native SDK calls an operation can issue (arguments reduced to the
data the claims mention). -/
inductive NativeCall where
  | loginV30 : List Nat → Nat → List Nat → List Nat → NativeCall
  | logoutV30 : Int → NativeCall
  | getDVRConfig : Int → NativeCall
  | captureJPEGPicture : Int → Nat → NativeCall
  | getFileByTimeV40 : Int → Nat → NativeCall
  | playBackControl : Int → NativeCall
  | getDownloadPos : Int → NativeCall
  | stopGetFile : Int → NativeCall
  | getLastError : NativeCall
deriving DecidableEq, Repr

/-- CString::new (inside the as_c_string! macro) fails exactly when the
input contains a nul byte anywhere. -/
def hasNulByte (s : List Nat) : Bool := s.any (fun b => b == 0)

/-- struct HikDevice: optional login handle plus cached device descriptor
(the HikDeviceInfo newtype is collapsed into its payload). -/
structure HikDevice where
  login_hanlder : Option Int
  device_info : Option DeviceInfoV30
deriving DecidableEq, Repr

/-- HikDevice::new. -/
def HikDevice.new : HikDevice := ⟨none, none⟩

/-- NET_DVR_TIME: the six calendar fields copied from the chrono
DateTime arguments of get_file_by_time. -/
structure DvrTime where
  dwYear : Nat
  dwMonth : Nat
  dwDay : Nat
  dwHour : Nat
  dwMinute : Nat
  dwSecond : Nat
deriving DecidableEq, Repr

/-- struct HikDownload: transfer handle and the is_start flag (the
`thread` field is never populated anywhere in the source, so it is
omitted). -/
structure HikDownload where
  handle : Int
  is_start : Bool
deriving DecidableEq, Repr

/-- HikDownload::new. -/
def HikDownload.new (handle : Int) : HikDownload := ⟨handle, false⟩

/-- HikDevice::login.  The three as_c_string! conversions run first and
panic (CString::new(..).unwrap()) on any nul byte; then the native login
is issued; a negative result queries the last-error code and returns a
login error; otherwise handle and descriptor are stored. -/
def HikDevice.login (d : HikDevice) (ip username password : List Nat)
    (port : Nat) (nativeRes : Int) (devInfo : DeviceInfoV30) (lastErr : Int) :
    Outcome HikDevice × List NativeCall :=
  if hasNulByte ip then (Outcome.panicked, [])
  else if hasNulByte username then (Outcome.panicked, [])
  else if hasNulByte password then (Outcome.panicked, [])
  else if nativeRes < 0 then
    (Outcome.err (HikError.loginFailed lastErr),
      [NativeCall.loginV30 ip port username password, NativeCall.getLastError])
  else
    (Outcome.ok ⟨some nativeRes, some devInfo⟩,
      [NativeCall.loginV30 ip port username password])

/-- HikDevice::logout: best-effort native logout when a handle is held,
then both fields cleared; always Ok. -/
def HikDevice.logout (d : HikDevice) : HikDevice × List NativeCall :=
  match d.login_hanlder with
  | some lu => (⟨none, none⟩, [NativeCall.logoutV30 lu])
  | none => (⟨none, none⟩, [])

/-- HikDevice::get_ip_channel_config: fails fast without a handle; then a
native config query whose non-1 result is classified with the last-error
code and dwReturned. -/
def HikDevice.get_ip_channel_config (d : HikDevice) (nativeRes : Int)
    (cfg : IpParaCfg) (dwReturned : Nat) (lastErr : Int) :
    Outcome IpParaCfg × List NativeCall :=
  match d.login_hanlder with
  | none => (Outcome.err HikError.loginHandlerNotFound, [])
  | some lu =>
    if nativeRes ≠ 1 then
      (Outcome.err (HikError.getIpChannelConfigFailed lastErr dwReturned),
        [NativeCall.getDVRConfig lu, NativeCall.getLastError])
    else (Outcome.ok cfg, [NativeCall.getDVRConfig lu])

/-- HikDevice::get_channels: fetch the IP config (propagating its error),
require the cached descriptor, enumerate channels, then run the join
loop, whose out-of-range indexing is a panic. -/
def HikDevice.get_channels (d : HikDevice) (nativeRes : Int) (cfg : IpParaCfg)
    (dwReturned : Nat) (lastErr : Int) :
    Outcome (List Channel) × List NativeCall :=
  match d.get_ip_channel_config nativeRes cfg dwReturned lastErr with
  | (Outcome.ok channel_config, calls) =>
    match d.device_info with
    | none => (Outcome.err HikError.deviceInfoNotFound, calls)
    | some device_info =>
      match joinChannels channel_config (HikDeviceInfo.get_channels device_info) with
      | none => (Outcome.panicked, calls)
      | some channels => (Outcome.ok channels, calls)
  | (Outcome.err e, calls) => (Outcome.err e, calls)
  | (Outcome.panicked, calls) => (Outcome.panicked, calls)

/-- HikDevice::capture_jpeg_picture: fails fast without a handle; then the
as_c_string! conversion of the file name (panic on nul); then the native
capture, classified on non-1 result. -/
def HikDevice.capture_jpeg_picture (d : HikDevice) (channel : Nat)
    (file : List Nat) (nativeRes : Int) (lastErr : Int) :
    Outcome Unit × List NativeCall :=
  match d.login_hanlder with
  | none => (Outcome.err HikError.loginHandlerNotFound, [])
  | some lu =>
    if hasNulByte file then (Outcome.panicked, [])
    else if nativeRes ≠ 1 then
      (Outcome.err (HikError.captureJpegFailed lastErr),
        [NativeCall.captureJPEGPicture lu channel, NativeCall.getLastError])
    else (Outcome.ok (), [NativeCall.captureJPEGPicture lu channel])

/-- HikDevice::get_file_by_time: fails fast without a handle; then the
as_c_string! conversion of the file name; then the native open-by-time
call, negative handle classified, otherwise a fresh HikDownload. -/
def HikDevice.get_file_by_time (d : HikDevice) (file : List Nat)
    (channel : Nat) (start_time end_time : DvrTime) (nativeHandle : Int)
    (lastErr : Int) : Outcome HikDownload × List NativeCall :=
  match d.login_hanlder with
  | none => (Outcome.err HikError.loginHandlerNotFound, [])
  | some lu =>
    if hasNulByte file then (Outcome.panicked, [])
    else if nativeHandle < 0 then
      (Outcome.err (HikError.getFileByTimeFailed lastErr),
        [NativeCall.getFileByTimeV40 lu channel, NativeCall.getLastError])
    else
      (Outcome.ok (HikDownload.new nativeHandle),
        [NativeCall.getFileByTimeV40 lu channel])

/-- HikDownload::start: no-op Ok if already started; otherwise the native
play-start control, non-1 result classified with the flag left unchanged,
result 1 setting the flag. -/
def HikDownload.start (s : HikDownload) (nativeRes : Int) (lastErr : Int) :
    HikDownload × Outcome Unit × List NativeCall :=
  if s.is_start then (s, Outcome.ok (), [])
  else if nativeRes ≠ 1 then
    (s, Outcome.err (HikError.startDownloadFailed lastErr),
      [NativeCall.playBackControl s.handle, NativeCall.getLastError])
  else
    ({ s with is_start := true }, Outcome.ok (),
      [NativeCall.playBackControl s.handle])

/-- HikDownload::get_progress: not-started error with no native call when
the flag is clear; otherwise the native position query, classified:
0..=100 Ok, -1 last-error-code error, 200 network error, any other
out-of-range value the generic failure. -/
def HikDownload.get_progress (s : HikDownload) (pos : Int) (lastErr : Int) :
    Outcome Int × List NativeCall :=
  if s.is_start = false then (Outcome.err HikError.downloadNotStarted, [])
  else if pos < 0 ∨ pos > 100 then
    if pos = -1 then
      (Outcome.err (HikError.getProgressFailedWithCode lastErr),
        [NativeCall.getDownloadPos s.handle, NativeCall.getLastError])
    else if pos = 200 then
      (Outcome.err HikError.networkError, [NativeCall.getDownloadPos s.handle])
    else
      (Outcome.err HikError.getProgressFailed,
        [NativeCall.getDownloadPos s.handle])
  else (Outcome.ok pos, [NativeCall.getDownloadPos s.handle])

/-- HikDownload::stop: the flag is stored false before the native
stop-transfer call, whose non-1 result is classified and returned
after the flag was already cleared. -/
def HikDownload.stop (s : HikDownload) (nativeRes : Int) (lastErr : Int) :
    HikDownload × Outcome Unit × List NativeCall :=
  let s2 : HikDownload := { s with is_start := false }
  if nativeRes ≠ 1 then
    (s2, Outcome.err (HikError.stopDownloadFailed lastErr),
      [NativeCall.stopGetFile s.handle, NativeCall.getLastError])
  else (s2, Outcome.ok (), [NativeCall.stopGetFile s.handle])

/-- Drop for HikDownload: calls stop and discards its result (the never-
populated thread field joins to nothing). -/
def HikDownload.dropSession (s : HikDownload) (nativeRes : Int)
    (lastErr : Int) : HikDownload × List NativeCall :=
  let r := s.stop nativeRes lastErr
  (r.1, r.2.2)

/-- Drop glue for HikDevice.  src/src/device.rs declares no Drop impl for
HikDevice (only HikDownload has one), and its fields — Option of a plain
integer handle and Option of a plain-data descriptor — have trivial drop
glue, so dropping a HikDevice issues no native call at all. -/
def HikDevice.dropCalls (d : HikDevice) : List NativeCall := []

/-- Modelled from the spec: the spec's Session Manager teardown — losing
the owning reference while a session handle is held triggers an implicit
best-effort logout whose error is ignored.  No such code exists in the
source; this definition follows the spec wording for comparison. -/
def HikDevice.dropCallsSpec (d : HikDevice) : List NativeCall :=
  match d.login_hanlder with
  | some h => [NativeCall.logoutV30 h]
  | none => []

/-- C1: with no stored login handle, each public operation other than
login (get_channels, get_ip_channel_config, capture_jpeg_picture,
get_file_by_time) returns the no-session error immediately and issues no
native call. -/
theorem c1_no_session_fails_fast (d : HikDevice)
    (h : d.login_hanlder = none) (nativeRes : Int) (cfg : IpParaCfg)
    (dwReturned : Nat) (lastErr : Int) (channel : Nat) (file : List Nat)
    (st et : DvrTime) (nativeHandle : Int) :
    d.get_channels nativeRes cfg dwReturned lastErr =
      (Outcome.err HikError.loginHandlerNotFound, []) ∧
    d.get_ip_channel_config nativeRes cfg dwReturned lastErr =
      (Outcome.err HikError.loginHandlerNotFound, []) ∧
    d.capture_jpeg_picture channel file nativeRes lastErr =
      (Outcome.err HikError.loginHandlerNotFound, []) ∧
    d.get_file_by_time file channel st et nativeHandle lastErr =
      (Outcome.err HikError.loginHandlerNotFound, []) := by
  simp [HikDevice.get_channels, HikDevice.get_ip_channel_config,
    HikDevice.capture_jpeg_picture, HikDevice.get_file_by_time, h]

/-- Witness for C1 at a concrete fresh device. -/
theorem c1_no_session_fails_fast_witness :
    HikDevice.get_channels ⟨none, none⟩ 1 ⟨[], [], []⟩ 0 0 =
      (Outcome.err HikError.loginHandlerNotFound, []) ∧
    HikDevice.capture_jpeg_picture ⟨none, none⟩ 1 [97] 1 0 =
      (Outcome.err HikError.loginHandlerNotFound, []) := by
  refine ⟨?_, ?_⟩
  · exact (c1_no_session_fails_fast ⟨none, none⟩ rfl 1 ⟨[], [], []⟩ 0 0 1 [97]
      ⟨0, 0, 0, 0, 0, 0⟩ ⟨0, 0, 0, 0, 0, 0⟩ 0).1
  · exact (c1_no_session_fails_fast ⟨none, none⟩ rfl 1 ⟨[], [], []⟩ 0 0 1 [97]
      ⟨0, 0, 0, 0, 0, 0⟩ ⟨0, 0, 0, 0, 0, 0⟩ 0).2.2.1

/-- C3: get_progress in the Started state returns Ok exactly on native
values 0..=100, classifies -1 with the last-error code, 200 as the
network error, other out-of-range values generically; in a non-Started
state it returns the not-started error with no native call. -/
theorem c3_get_progress_classification (s : HikDownload) (pos lastErr : Int) :
    (s.is_start = false →
      s.get_progress pos lastErr =
        (Outcome.err HikError.downloadNotStarted, [])) ∧
    (s.is_start = true →
      (0 ≤ pos ∧ pos ≤ 100 →
        s.get_progress pos lastErr =
          (Outcome.ok pos, [NativeCall.getDownloadPos s.handle])) ∧
      (pos = -1 →
        s.get_progress pos lastErr =
          (Outcome.err (HikError.getProgressFailedWithCode lastErr),
            [NativeCall.getDownloadPos s.handle, NativeCall.getLastError])) ∧
      (pos = 200 →
        s.get_progress pos lastErr =
          (Outcome.err HikError.networkError,
            [NativeCall.getDownloadPos s.handle])) ∧
      ((pos < -1 ∨ (100 < pos ∧ pos ≠ 200)) →
        s.get_progress pos lastErr =
          (Outcome.err HikError.getProgressFailed,
            [NativeCall.getDownloadPos s.handle]))) := by
  unfold HikDownload.get_progress
  refine ⟨fun hs => by simp [hs], fun hs => ⟨?_, ?_, ?_, ?_⟩⟩
  · intro hp
    simp [hs]
    split_ifs with h1 h2 h3 <;> first | rfl | omega
  · intro hp; subst hp; simp [hs]
  · intro hp; subst hp; simp [hs]
  · intro hp
    simp [hs]
    split_ifs with h1 h2 h3 <;> first | rfl | omega

/-- Witness for C3 at a started session with native value 50. -/
theorem c3_get_progress_classification_witness :
    HikDownload.get_progress ⟨7, true⟩ 50 0 =
      (Outcome.ok 50, [NativeCall.getDownloadPos 7]) :=
  ((c3_get_progress_classification ⟨7, true⟩ 50 0).2 rfl).1 ⟨by decide, by decide⟩

/-- C4: stop always leaves the started flag cleared (handle untouched),
returns the classified error exactly when the native result is not 1,
never panics, and a second stop still leaves the flag cleared. -/
theorem c4_stop_always_clears (s : HikDownload) (nativeRes lastErr : Int) :
    (s.stop nativeRes lastErr).1.is_start = false ∧
    (s.stop nativeRes lastErr).1.handle = s.handle ∧
    (nativeRes ≠ 1 →
      (s.stop nativeRes lastErr).2.1 =
        Outcome.err (HikError.stopDownloadFailed lastErr)) ∧
    (nativeRes = 1 → (s.stop nativeRes lastErr).2.1 = Outcome.ok ()) ∧
    (s.stop nativeRes lastErr).2.1 ≠ Outcome.panicked ∧
    ((s.stop nativeRes lastErr).1.stop nativeRes lastErr).1.is_start = false := by
  unfold HikDownload.stop
  split_ifs with h <;>
    simp_all

/-- Witness for C4: stopping a never-started session under a failing
native result still clears the flag and reports the error. -/
theorem c4_stop_always_clears_witness :
    (HikDownload.stop ⟨3, false⟩ 0 42).1.is_start = false ∧
    (HikDownload.stop ⟨3, false⟩ 0 42).2.1 =
      Outcome.err (HikError.stopDownloadFailed 42) := by
  refine ⟨(c4_stop_always_clears ⟨3, false⟩ 0 42).1, ?_⟩
  exact (c4_stop_always_clears ⟨3, false⟩ 0 42).2.2.1 (by decide)

/-- C7: start is a no-op success with no native call when already
started; otherwise a non-1 native result yields the classified error with
the state unchanged (flag still clear) and a result of 1 sets the flag. -/
theorem c7_start_transitions (s : HikDownload) (nativeRes lastErr : Int) :
    (s.is_start = true → s.start nativeRes lastErr = (s, Outcome.ok (), [])) ∧
    (s.is_start = false → nativeRes ≠ 1 →
      s.start nativeRes lastErr =
        (s, Outcome.err (HikError.startDownloadFailed lastErr),
          [NativeCall.playBackControl s.handle, NativeCall.getLastError])) ∧
    (s.is_start = false → nativeRes = 1 →
      s.start nativeRes lastErr =
        ({ s with is_start := true }, Outcome.ok (),
          [NativeCall.playBackControl s.handle])) := by
  unfold HikDownload.start
  refine ⟨fun hs => by simp [hs], fun hs hr => by simp [hs, hr],
    fun hs hr => by simp [hs, hr]⟩

/-- Witness for C7: a failed native start on a fresh session leaves it
un-started; a successful one starts it. -/
theorem c7_start_transitions_witness :
    HikDownload.start ⟨3, false⟩ 0 9 =
      (⟨3, false⟩, Outcome.err (HikError.startDownloadFailed 9),
        [NativeCall.playBackControl 3, NativeCall.getLastError]) ∧
    HikDownload.start ⟨3, false⟩ 1 9 =
      (⟨3, true⟩, Outcome.ok (), [NativeCall.playBackControl 3]) := by
  refine ⟨(c7_start_transitions ⟨3, false⟩ 0 9).2.1 rfl (by decide), ?_⟩
  exact (c7_start_transitions ⟨3, false⟩ 1 9).2.2 rfl rfl

/-- C5: the source has no Drop impl for HikDevice, so dropping a device
that still holds a login handle issues no native call at all, while the
spec-modelled teardown requires an implicit logout of that handle. -/
theorem c5_drop_performs_no_logout :
    HikDevice.dropCalls ⟨some 5, none⟩ = [] ∧
    HikDevice.dropCallsSpec ⟨some 5, none⟩ = [NativeCall.logoutV30 5] :=
  ⟨rfl, rfl⟩

/-- C6 counterexample: login with a host string containing a nul byte
panics (CString::new(..).unwrap()) instead of returning an error; no
native call is made. -/
theorem c6_login_nul_counterexample :
    (HikDevice.login ⟨none, none⟩ [0] [97] [98] 8000 1 ⟨0, 0, 0, 0, 0⟩ 0).1 =
      Outcome.panicked ∧
    (HikDevice.login ⟨none, none⟩ [0] [97] [98] 8000 1
      ⟨0, 0, 0, 0, 0⟩ 0).1.isErr = false := by
  constructor <;> rfl

/-- C6 (amended): for any of the three string arguments containing a nul
byte, login fails before any native call by panicking (the unwrap inside
as_c_string!), rather than by returning an error. -/
theorem c6_login_rejects_nul (d : HikDevice) (ip username password : List Nat)
    (port : Nat) (nativeRes : Int) (devInfo : DeviceInfoV30) (lastErr : Int)
    (h : hasNulByte ip = true ∨ hasNulByte username = true ∨
      hasNulByte password = true) :
    (d.login ip username password port nativeRes devInfo lastErr).1 =
      Outcome.panicked ∧
    (d.login ip username password port nativeRes devInfo lastErr).2 = [] := by
  unfold HikDevice.login
  rcases h with h | h | h <;>
    by_cases h1 : hasNulByte ip <;>
    by_cases h2 : hasNulByte username <;>
    by_cases h3 : hasNulByte password <;>
    simp_all

/-- Witness for C6 (amended) with a nul byte in the password. -/
theorem c6_login_rejects_nul_witness :
    (HikDevice.login ⟨none, none⟩ [104] [97] [112, 0] 8000 1
      ⟨0, 0, 0, 0, 0⟩ 0).1 = Outcome.panicked ∧
    (HikDevice.login ⟨none, none⟩ [104] [97] [112, 0] 8000 1
      ⟨0, 0, 0, 0, 0⟩ 0).2 = [] :=
  c6_login_rejects_nul ⟨none, none⟩ [104] [97] [112, 0] 8000 1
    ⟨0, 0, 0, 0, 0⟩ 0 (Or.inr (Or.inr (by decide)))

/-- Helper: counting over a mapped range when the predicate holds of
every image. -/
theorem countP_map_range_true {β : Type} (p : β → Bool) (f : Nat → β)
    (h : ∀ i, p (f i) = true) (n : Nat) :
    ((List.range n).map f).countP p = ((List.range n).map f).length := by
  rw [List.countP_eq_length]
  intro a ha
  obtain ⟨i, _, rfl⟩ := List.mem_map.mp ha
  exact h i

/-- Helper: counting over a mapped range when the predicate fails of
every image. -/
theorem countP_map_range_false {β : Type} (p : β → Bool) (f : Nat → β)
    (h : ∀ i, p (f i) = false) (n : Nat) :
    ((List.range n).map f).countP p = 0 := by
  rw [List.countP_eq_zero]
  intro a ha
  obtain ⟨i, _, rfl⟩ := List.mem_map.mp ha
  simp [h i]

/-- The number of logic channels enumerated by get_channels, for any
descriptor, including wrapped loop bounds. -/
theorem get_channels_countP_isLogic (d : DeviceInfoV30) :
    (HikDeviceInfo.get_channels d).countP Channel.isLogic =
      (d.byStartChan + d.byChanNum) % 256 - d.byStartChan := by
  simp only [HikDeviceInfo.get_channels]
  rw [List.countP_append, countP_map_range_true, countP_map_range_false]
  · simp
  · intro i; rfl
  · intro i; rfl

/-- The number of IP channels enumerated by get_channels, for any
descriptor, including wrapped loop bounds. -/
theorem get_channels_countP_isIP (d : DeviceInfoV30) :
    (HikDeviceInfo.get_channels d).countP Channel.isIP =
      (d.byStartDChan + (d.byIPChanNum + d.byHighDChanNum * 256)) % 65536 -
        d.byStartDChan := by
  simp only [HikDeviceInfo.get_channels]
  rw [List.countP_append, countP_map_range_false, countP_map_range_true]
  · simp
  · intro i; rfl
  · intro i; rfl

/-- Helper: when neither loop bound overflows its integer width,
get_channels is the two contiguous blocks of the resolver algorithm. -/
theorem get_channels_of_no_overflow (d : DeviceInfoV30)
    (h1 : d.byStartChan + d.byChanNum ≤ 255)
    (h2 : d.byStartDChan + (d.byIPChanNum + d.byHighDChanNum * 256) ≤ 65535) :
    HikDeviceInfo.get_channels d =
      (List.range d.byChanNum).map
        (fun i => Channel.Logic (ChannelInfo.new i (d.byStartChan + i))) ++
      (List.range (d.byIPChanNum + d.byHighDChanNum * 256)).map
        (fun i => Channel.IP (ChannelInfo.new i (d.byStartDChan + i))) := by
  simp only [HikDeviceInfo.get_channels]
  have e1 : (d.byStartChan + d.byChanNum) % 256 = d.byStartChan + d.byChanNum :=
    Nat.mod_eq_of_lt (by omega)
  have e2 : (d.byStartDChan + (d.byIPChanNum + d.byHighDChanNum * 256)) % 65536 =
      d.byStartDChan + (d.byIPChanNum + d.byHighDChanNum * 256) :=
    Nat.mod_eq_of_lt (by omega)
  rw [e1, e2, Nat.add_sub_cancel_left, Nat.add_sub_cancel_left]

/-- C2 counterexample: on the descriptor with byStartChan = 255 and
byChanNum = 1 the u8 loop bound wraps to 0 and get_channels returns no
channels at all instead of one logic channel. -/
theorem c2_channel_layout_counterexample :
    HikDeviceInfo.get_channels ⟨1, 255, 0, 0, 0⟩ = [] ∧
    (⟨1, 255, 0, 0, 0⟩ : DeviceInfoV30).byChanNum = 1 := by
  constructor <;> rfl

/-- C2 (amended): provided the u8 loop bound byStartChan + byChanNum does
not exceed 255 and the u16 loop bound byStartDChan + (byIPChanNum +
byHighDChanNum * 256) does not exceed 65535, get_channels is exactly
byChanNum logic channels followed by byIPChanNum + byHighDChanNum * 256
IP channels, with resolver indices contiguous from 0 in each group and
device channel number equal to the group's start channel plus the
index. -/
theorem c2_channel_layout (d : DeviceInfoV30)
    (h1 : d.byStartChan + d.byChanNum ≤ 255)
    (h2 : d.byStartDChan + (d.byIPChanNum + d.byHighDChanNum * 256) ≤ 65535) :
    HikDeviceInfo.get_channels d =
      (List.range d.byChanNum).map
        (fun i => Channel.Logic (ChannelInfo.new i (d.byStartChan + i))) ++
      (List.range (d.byIPChanNum + d.byHighDChanNum * 256)).map
        (fun i => Channel.IP (ChannelInfo.new i (d.byStartDChan + i))) :=
  get_channels_of_no_overflow d h1 h2

/-- Witness for C2 (amended) at the spec's scenario descriptor: 4 analog
channels starting at 1, 8 IP channels starting at 33. -/
theorem c2_channel_layout_witness :
    HikDeviceInfo.get_channels ⟨4, 1, 8, 0, 33⟩ =
      (List.range 4).map
        (fun i => Channel.Logic (ChannelInfo.new i (1 + i))) ++
      (List.range 8).map
        (fun i => Channel.IP (ChannelInfo.new i (33 + i))) :=
  c2_channel_layout ⟨4, 1, 8, 0, 33⟩ (by decide) (by decide)

/-- C10: for a well-formed descriptor the logic-channel loop enumerates
byChanNum channels exactly when the 8-bit sum byStartChan + byChanNum
does not exceed 255, and enumerates none at all when that sum wraps;
analogously the IP-channel loop enumerates the computed IP count exactly
when the 16-bit sum byStartDChan + ipCount does not exceed 65535, and
none when it wraps. -/
theorem c10_loop_bound_overflow (d : DeviceInfoV30) (hwf : d.Wf) :
    ((d.byStartChan + d.byChanNum ≤ 255 →
      (HikDeviceInfo.get_channels d).countP Channel.isLogic = d.byChanNum) ∧
     (255 < d.byStartChan + d.byChanNum →
      (HikDeviceInfo.get_channels d).countP Channel.isLogic = 0)) ∧
    ((d.byStartDChan + (d.byIPChanNum + d.byHighDChanNum * 256) ≤ 65535 →
      (HikDeviceInfo.get_channels d).countP Channel.isIP =
        d.byIPChanNum + d.byHighDChanNum * 256) ∧
     (65535 < d.byStartDChan + (d.byIPChanNum + d.byHighDChanNum * 256) →
      (HikDeviceInfo.get_channels d).countP Channel.isIP = 0)) := by
  have hL := get_channels_countP_isLogic d
  have hI := get_channels_countP_isIP d
  obtain ⟨w1, w2, w3, w4, w5⟩ := hwf
  refine ⟨⟨fun h => ?_, fun h => ?_⟩, fun h => ?_, fun h => ?_⟩ <;> omega

/-- Witness for C10: the in-range scenario descriptor enumerates its 4
logic channels; a descriptor with byStartChan = 100, byChanNum = 200
wraps and enumerates none. -/
theorem c10_loop_bound_overflow_witness :
    (HikDeviceInfo.get_channels ⟨4, 1, 8, 0, 33⟩).countP Channel.isLogic = 4 ∧
    (HikDeviceInfo.get_channels ⟨200, 100, 0, 0, 0⟩).countP Channel.isLogic = 0 :=
  ⟨(c10_loop_bound_overflow ⟨4, 1, 8, 0, 33⟩ (by decide)).1.1 (by decide),
   (c10_loop_bound_overflow ⟨200, 100, 0, 0, 0⟩ (by decide)).1.2 (by decide)⟩

/-- Helper: from_utf8_lossy is the identity on an all-zero byte buffer
(every zero byte is ASCII and decodes to the nul code point). -/
theorem utf8Lossy_all_zero (l : List Nat) (h : ∀ b ∈ l, b = 0) :
    utf8Lossy l = l := by
  induction l with
  | nil => simp [utf8Lossy]
  | cons b rest ih =>
    have hb : b = 0 := h b (List.mem_cons_self b rest)
    subst hb
    have ih2 := ih (fun b hb => h b (List.mem_cons_of_mem _ hb))
    simp [utf8Lossy, utf8DecodeStep, ih2]

/-- C8: a backing byte buffer consisting entirely of nul bytes decodes,
through the from_utf8_lossy plus trailing-nul-trimming pipeline applied
by get_channels to the IPv4 and IPv6 fields, to the empty string — never
garbage and never a failure. -/
theorem c8_all_null_buffer_decodes_empty (raw : List Nat)
    (h : ∀ b ∈ raw, b = 0) : decodeCStringField raw = [] := by
  unfold decodeCStringField trimEndZeros
  rw [utf8Lossy_all_zero raw h]
  rw [List.dropWhile_eq_nil_iff.mpr, List.reverse_nil]
  intro x hx
  have := h x (List.mem_reverse.mp hx)
  simp [this]

/-- Witness for C8 on a four-byte all-nul buffer. -/
theorem c8_all_null_buffer_decodes_empty_witness :
    decodeCStringField [0, 0, 0, 0] = [] :=
  c8_all_null_buffer_decodes_empty [0, 0, 0, 0] (by decide)

/-- Helper: get? succeeds exactly on indices below the length. -/
theorem getElem?_isSome_iff {α : Type} (l : List α) (n : Nat) :
    l[n]?.isSome = true ↔ n < l.length := by
  constructor
  · intro h
    by_contra hn
    rw [List.getElem?_eq_none (by omega)] at h
    simp at h
  · intro h
    cases hg : l[n]? with
    | none => exact absurd (List.getElem?_eq_none_iff.mp hg) (by omega)
    | some a => rfl

/-- Helper: the join loop completes exactly when every single channel
update completes. -/
theorem joinChannels_isSome_iff (cfg : IpParaCfg) (l : List Channel) :
    (joinChannels cfg l).isSome = true ↔
      ∀ c ∈ l, (updateChannel cfg c).isSome = true := by
  induction l with
  | nil => simp [joinChannels]
  | cons c rest ih =>
    cases hc : updateChannel cfg c with
    | none => simp [joinChannels, hc]
    | some c2 =>
      cases hr : joinChannels cfg rest with
      | none => simp [joinChannels, hc, hr, ← ih]
      | some r2 => simp [joinChannels, hc, hr, ← ih]

/-- Helper: a logic-channel update completes exactly when its resolver
index is inside the analog-enable array. -/
theorem updateChannel_logic_isSome (cfg : IpParaCfg) (ci : ChannelInfo) :
    (updateChannel cfg (Channel.Logic ci)).isSome = true ↔
      ci.index < cfg.byAnalogChanEnable.length := by
  rw [← getElem?_isSome_iff]
  unfold updateChannel
  cases hg : cfg.byAnalogChanEnable[ci.index]? <;> simp [hg]

/-- Helper: an IP-channel update completes exactly when its resolver
index is inside both the IP-device-info and the stream-mode arrays. -/
theorem updateChannel_ip_isSome (cfg : IpParaCfg) (ci : ChannelInfo) :
    (updateChannel cfg (Channel.IP ci)).isSome = true ↔
      (ci.index < cfg.struIPDevInfo.length ∧
        ci.index < cfg.struStreamMode.length) := by
  unfold updateChannel
  cases h1 : cfg.struIPDevInfo[ci.index]? <;>
    cases h2 : cfg.struStreamMode[ci.index]? <;>
      simp [h1, h2, ← getElem?_isSome_iff]

/-- C9 counterexample: with byStartChan = 255 and byChanNum = 100 the
loop bound wraps, no channel is enumerated, and the join loop of
get_channels completes even though the analog channel count 100 exceeds
the (empty) analog-enable capacity, so exceeding a capacity does not by
itself make the indexing out of bounds. -/
theorem c9_wrap_counterexample :
    joinChannels ⟨[], [], []⟩
      (HikDeviceInfo.get_channels ⟨100, 255, 0, 0, 0⟩) = some [] ∧
    ¬((⟨100, 255, 0, 0, 0⟩ : DeviceInfoV30).byChanNum ≤
      (⟨[], [], []⟩ : IpParaCfg).byAnalogChanEnable.length) := by
  constructor
  · rfl
  · decide

/-- C9 (amended): provided the loop bounds do not overflow their integer
widths, the unchecked indexing of the join loop of get_channels
completes without panicking exactly when the descriptor's analog channel
count fits the analog-enable array and the computed IP channel count
byIPChanNum + byHighDChanNum * 256 fits both the IP-device-info and the
stream-mode arrays; whenever a count exceeds the corresponding capacity
the indexing goes out of bounds. -/
theorem c9_join_in_bounds_iff (d : DeviceInfoV30) (cfg : IpParaCfg)
    (h1 : d.byStartChan + d.byChanNum ≤ 255)
    (h2 : d.byStartDChan + (d.byIPChanNum + d.byHighDChanNum * 256) ≤ 65535) :
    (joinChannels cfg (HikDeviceInfo.get_channels d)).isSome = true ↔
      (d.byChanNum ≤ cfg.byAnalogChanEnable.length ∧
        d.byIPChanNum + d.byHighDChanNum * 256 ≤ cfg.struIPDevInfo.length ∧
        d.byIPChanNum + d.byHighDChanNum * 256 ≤ cfg.struStreamMode.length) := by
  rw [joinChannels_isSome_iff, get_channels_of_no_overflow d h1 h2]
  simp only [List.forall_mem_append, List.forall_mem_map, List.mem_range,
    updateChannel_logic_isSome, updateChannel_ip_isSome, ChannelInfo.new]
  constructor
  · rintro ⟨hA, hI⟩
    refine ⟨?_, ?_, ?_⟩
    · rcases Nat.eq_zero_or_pos d.byChanNum with h0 | h0
      · omega
      · have := hA (d.byChanNum - 1) (by omega)
        omega
    · rcases Nat.eq_zero_or_pos (d.byIPChanNum + d.byHighDChanNum * 256)
        with h0 | h0
      · omega
      · have := hI (d.byIPChanNum + d.byHighDChanNum * 256 - 1) (by omega)
        omega
    · rcases Nat.eq_zero_or_pos (d.byIPChanNum + d.byHighDChanNum * 256)
        with h0 | h0
      · omega
      · have := hI (d.byIPChanNum + d.byHighDChanNum * 256 - 1) (by omega)
        omega
  · rintro ⟨hA, hI, hS⟩
    exact ⟨fun i hi => by omega, fun i hi => ⟨by omega, by omega⟩⟩

/-- Witness for C9 (amended): a descriptor with 2 analog and 1 IP channel
against arrays of capacities 2, 1 and 1 joins without panicking. -/
theorem c9_join_in_bounds_iff_witness :
    (joinChannels ⟨[1, 0], [⟨1, [], []⟩], [⟨0, 3⟩]⟩
      (HikDeviceInfo.get_channels ⟨2, 0, 1, 0, 10⟩)).isSome = true :=
  (c9_join_in_bounds_iff ⟨2, 0, 1, 0, 10⟩ ⟨[1, 0], [⟨1, [], []⟩], [⟨0, 3⟩]⟩
    (by decide) (by decide)).mpr (by decide)

end HikNetSdk
